import Mathlib

/-!
Verification of the weighted matching/recommendation scoring engine of the
AX coaching-support application (ScoreCalculator and Recommender).

The repository ships the engine's TypeScript type declarations
(`frontend/src/app/evaluator/pending/page.tsx`: `MatchScoreBreakdown`,
`RecommendedCandidate`, `RecommendRequest`, `RecommendationLevel`,
`CompatibilityCheckResponse`), its UI consumers
(`frontend/src/components/matching/RecommendationCard.tsx`,
`frontend/src/store/expertStore.ts`, `frontend/src/hooks/useMatching.ts`)
and its design documents (`docs/planning/02_TRD.md` §7.1 weights,
`docs/planning/06_TASKS.md`), but the service itself
(`backend/src/app/services/matching_service.py`) is not among the source
files.  The engine is therefore modelled here from the specification; each
definition's doc comment records this.
-/

namespace Matching

/-- Specialty tags are plain categorical strings, e.g. "ML", "DL", "CV". -/
abbrev Tag := String

/-- Modelled from the spec: three-state qualification status of an expert
(`QUALIFIED`, `PENDING`, `DISQUALIFIED`), matching the badge mapping in
`RecommendationCard.tsx` (`getQualificationBadge`). -/
inductive QualificationStatus where
  | QUALIFIED
  | PENDING
  | DISQUALIFIED
deriving DecidableEq, Repr

/-- Modelled from the spec: an expert record as read by the scoring core —
identifier, display name, specialty-tag set, qualification status, career
length in whole years, optional availability indicator (boolean signal) and
optional aggregated evaluation percentage. -/
structure Expert where
  id : String
  name : String
  specialties : Finset Tag
  qualification : QualificationStatus
  careerYears : Int
  availability : Option Bool
  evaluation : Option ℚ
deriving DecidableEq

/-- Modelled from the spec: a demand record — identifier and required
specialty-tag set. -/
structure Demand where
  id : String
  requiredSpecialties : Finset Tag
deriving DecidableEq

/-- Modelled from the spec: the five-part score breakdown plus total,
mirroring the `MatchScoreBreakdown` interface of
`frontend/src/app/evaluator/pending/page.tsx`. -/
structure MatchScoreBreakdown where
  specialty : ℚ
  qualification : ℚ
  career : ℚ
  evaluation : ℚ
  availability : ℚ
  total : ℚ
deriving DecidableEq, Repr

/-- Modelled from the spec: the named weight configuration (design note:
"Fixed weighting scheme as configuration, not hard constant"). -/
structure Weights where
  specialty : ℚ
  qualification : ℚ
  career : ℚ
  evaluation : ℚ
  availability : ℚ
deriving DecidableEq, Repr

/-- Modelled from the spec and `docs/planning/02_TRD.md` §7.1: the fixed
weights 0.40 / 0.15 / 0.15 / 0.20 / 0.10. -/
def defaultWeights : Weights :=
  { specialty := 40 / 100
    qualification := 15 / 100
    career := 15 / 100
    evaluation := 20 / 100
    availability := 10 / 100 }

/-- Modelled from the spec: defensive clamp of a sub-score to [0, 100]. -/
def clamp (x : ℚ) : ℚ := max 0 (min 100 x)

/-- Modelled from the spec: specialty sub-score — intersection size over
required-set size, scaled to 0–100; neutral mid-value 50 when the demand's
required set is empty. -/
def specialtyScore (e : Expert) (d : Demand) : ℚ :=
  if d.requiredSpecialties = ∅ then 50
  else ((e.specialties ∩ d.requiredSpecialties).card : ℚ)
        / (d.requiredSpecialties.card : ℚ) * 100

/-- Modelled from the spec: discrete qualification mapping
QUALIFIED → 100, PENDING → 50, DISQUALIFIED → 0. -/
def qualificationScore : QualificationStatus → ℚ
  | .QUALIFIED => 100
  | .PENDING => 50
  | .DISQUALIFIED => 0

/-- Modelled from the spec: the configured career ceiling (15 years reaches
the 100 cap). -/
def CAREER_CAP_YEARS : ℚ := 15

/-- Modelled from the spec: career sub-score, a monotone saturating function
of career years — min(100, years / cap * 100), with zero or negative years
yielding 0. -/
def careerScore (years : Int) : ℚ :=
  if years ≤ 0 then 0 else min 100 ((years : ℚ) / CAREER_CAP_YEARS * 100)

/-- Modelled from the spec: documented neutral default for an expert with no
graded evaluation history. -/
def EVALUATION_DEFAULT : ℚ := 50

/-- Modelled from the spec: documented neutral default for a missing
availability signal. -/
def AVAILABILITY_DEFAULT : ℚ := 50

/-- Modelled from the spec: evaluation sub-score — the aggregated evaluation
percentage passed through unchanged, neutral default when absent. -/
def evaluationScore (ev : Option ℚ) : ℚ := ev.getD EVALUATION_DEFAULT

/-- Modelled from the spec: availability sub-score — boolean signal mapped
to 100/0, neutral default when absent. -/
def availabilityScore : Option Bool → ℚ
  | some true => 100
  | some false => 0
  | none => AVAILABILITY_DEFAULT

/-- Modelled from the spec: `ScoreCalculator.score` — the five sub-scores,
each clamped to [0, 100] after computation, combined into the fixed-weight
total. -/
def score (e : Expert) (d : Demand) : MatchScoreBreakdown :=
  let s := clamp (specialtyScore e d)
  let q := clamp (qualificationScore e.qualification)
  let c := clamp (careerScore e.careerYears)
  let ev := clamp (evaluationScore e.evaluation)
  let a := clamp (availabilityScore e.availability)
  { specialty := s
    qualification := q
    career := c
    evaluation := ev
    availability := a
    total := defaultWeights.specialty * s + defaultWeights.qualification * q
      + defaultWeights.career * c + defaultWeights.evaluation * ev
      + defaultWeights.availability * a }

/-- Modelled from the spec: raw expert input before structural validation —
the qualification status may be structurally absent (null/undefined). -/
structure RawExpert where
  id : String
  name : String
  specialties : Finset Tag
  qualification : Option QualificationStatus
  careerYears : Int
  availability : Option Bool
  evaluation : Option ℚ
deriving DecidableEq

/-- Modelled from the spec: raw demand input before structural validation —
the required-specialty set may be structurally absent (null/undefined),
which is distinct from being present but empty. -/
structure RawDemand where
  id : String
  requiredSpecialties : Option (Finset Tag)
deriving DecidableEq

/-- Modelled from the spec: the data-contract violations on which the scorer
fails fast. -/
inductive ScoreError where
  | missingQualification
  | missingRequiredSpecialties
deriving DecidableEq, Repr

/-- Modelled from the spec: the call boundary of `ScoreCalculator.score` —
rejects the input only when a required field (expert's qualification status
or the demand's required-specialty set itself) is structurally absent, and
otherwise scores with neutral defaults for missing optional fields. -/
def scoreChecked (e : RawExpert) (d : RawDemand) :
    Except ScoreError MatchScoreBreakdown :=
  match e.qualification, d.requiredSpecialties with
  | none, _ => .error .missingQualification
  | some _, none => .error .missingRequiredSpecialties
  | some q, some req =>
      .ok (score ⟨e.id, e.name, e.specialties, q, e.careerYears,
                  e.availability, e.evaluation⟩ ⟨d.id, req⟩)

/-- Modelled from the spec: documented default for `topN`
(`RecommendRequest.top_n` default 10). -/
def DEFAULT_TOP_N : Int := 10

/-- Modelled from the spec: documented maximum for `topN`
(`RecommendRequest.top_n` max 50); larger requests are clamped. -/
def MAX_TOP_N : Int := 50

/-- Modelled from the spec: documented default for `minScore`
(`RecommendRequest.min_score` default 50.0). -/
def DEFAULT_MIN_SCORE : ℚ := 50

/-- Modelled from the spec: a recommended candidate as returned to the
caller, mirroring the `RecommendedCandidate` interface of
`frontend/src/app/evaluator/pending/page.tsx`. -/
structure RecommendedCandidate where
  expert_id : String
  expert_name : String
  total_score : ℚ
  score_breakdown : MatchScoreBreakdown
  recommendation_reasons : List String
  specialties : Finset Tag
  qualification_status : QualificationStatus
deriving DecidableEq

/-- Modelled from the spec: the "notable" sub-score threshold used for
reason generation. -/
def NOTABLE_THRESHOLD : ℚ := 80

/-- Modelled from the spec: one reason per sub-score clearing its notable
threshold (specialty ≥ 80, qualification = 100, evaluation ≥ 80,
availability = 100). -/
def notableReasons (b : MatchScoreBreakdown) : List String :=
  (if NOTABLE_THRESHOLD ≤ b.specialty then ["strong specialty match"] else [])
  ++ (if b.qualification = 100 then ["fully qualified"] else [])
  ++ (if NOTABLE_THRESHOLD ≤ b.evaluation
      then ["strong evaluation history"] else [])
  ++ (if b.availability = 100 then ["immediately available"] else [])

/-- Modelled from the spec: the generic fallback reason derived from the
highest-scoring sub-score when no sub-score clears the notable threshold. -/
def genericReason (b : MatchScoreBreakdown) : String :=
  let m := max b.specialty
    (max b.qualification (max b.career (max b.evaluation b.availability)))
  if b.specialty = m then "best dimension: specialty match"
  else if b.qualification = m then "best dimension: qualification"
  else if b.career = m then "best dimension: career"
  else if b.evaluation = m then "best dimension: evaluation history"
  else "best dimension: availability"

/-- Modelled from the spec: recommendation reasons for a surviving
candidate — the notable reasons, or the generic fallback so the list is
never empty. -/
def reasonsFor (b : MatchScoreBreakdown) : List String :=
  match notableReasons b with
  | [] => [genericReason b]
  | r :: rs => r :: rs

/-- Modelled from the spec: assemble the output record for one scored
expert. -/
def mkCandidate (e : Expert) (b : MatchScoreBreakdown) : RecommendedCandidate :=
  { expert_id := e.id
    expert_name := e.name
    total_score := b.total
    score_breakdown := b
    recommendation_reasons := reasonsFor b
    specialties := e.specialties
    qualification_status := e.qualification }

/-- Modelled from the spec: the deterministic sort key — descending by
total (encoded as ascending negated total), ties broken by qualification
sub-score descending, then career sub-score descending, then expert
identifier ascending. -/
def sortKey (c : RecommendedCandidate) : ℚ ×ₗ (ℚ ×ₗ (ℚ ×ₗ String)) :=
  toLex (-c.total_score,
    toLex (-c.score_breakdown.qualification,
      toLex (-c.score_breakdown.career, c.expert_id)))

/-- Modelled from the spec: the boolean comparison used to sort candidates. -/
def candLE (a b : RecommendedCandidate) : Bool := decide (sortKey a ≤ sortKey b)

/-- The documented ordering between adjacent output candidates, spelled out:
strictly greater total first; on equal totals, greater qualification
sub-score first; then greater career sub-score; then smaller identifier. -/
def candBefore (a b : RecommendedCandidate) : Prop :=
  b.total_score < a.total_score ∨
    (a.total_score = b.total_score ∧
      (b.score_breakdown.qualification < a.score_breakdown.qualification ∨
        (a.score_breakdown.qualification = b.score_breakdown.qualification ∧
          (b.score_breakdown.career < a.score_breakdown.career ∨
            (a.score_breakdown.career = b.score_breakdown.career ∧
              a.expert_id ≤ b.expert_id)))))

/-- Modelled from the spec: the invalid arguments `Recommender.recommend`
rejects. -/
inductive RecommendError where
  | invalidTopN
  | invalidMinScore
deriving DecidableEq, Repr

/-- Modelled from the spec: score every expert of the pool against the
demand. -/
def candidatesFor (d : Demand) (pool : List Expert) : List RecommendedCandidate :=
  pool.map (fun e => mkCandidate e (score e d))

/-- Modelled from the spec: the candidates surviving the `minScore` filter
(those with total strictly below the threshold are discarded). -/
def survivors (d : Demand) (pool : List Expert) (minScore : ℚ) :
    List RecommendedCandidate :=
  (candidatesFor d pool).filter (fun c => minScore ≤ c.total_score)

/-- Modelled from the spec: `Recommender.recommend` — validate arguments,
score the pool, filter by `minScore`, sort by the deterministic key, and
truncate to the first `topN` entries (with `topN` clamped to the documented
maximum). -/
def recommend (d : Demand) (pool : List Expert) (topN : Int) (minScore : ℚ) :
    Except RecommendError (List RecommendedCandidate) :=
  if topN ≤ 0 then .error .invalidTopN
  else if minScore < 0 ∨ 100 < minScore then .error .invalidMinScore
  else .ok
    (((survivors d pool minScore).mergeSort candLE).take (min topN MAX_TOP_N).toNat)

/-- Modelled from the spec: the four ordered qualitative bands of the
compatibility check, mirroring `RecommendationLevel` of
`frontend/src/app/evaluator/pending/page.tsx`. -/
inductive RecommendationLevel where
  | HIGHLY_RECOMMENDED
  | RECOMMENDED
  | POSSIBLE
  | NOT_RECOMMENDED
deriving DecidableEq, Repr

/-- Modelled from the spec: band assignment — total ≥ 80 highly
recommended, ≥ 60 recommended, ≥ 40 possible, below 40 not recommended
(the same cut points as `getScoreColor` in `RecommendationCard.tsx`). -/
def levelOf (total : ℚ) : RecommendationLevel :=
  if 80 ≤ total then .HIGHLY_RECOMMENDED
  else if 60 ≤ total then .RECOMMENDED
  else if 40 ≤ total then .POSSIBLE
  else .NOT_RECOMMENDED

/-- Modelled from the spec: the result of the single-pair compatibility
check, mirroring `CompatibilityCheckResponse`. -/
structure CompatibilityResult where
  total_score : ℚ
  score_breakdown : MatchScoreBreakdown
  recommendation : RecommendationLevel
deriving DecidableEq

/-- Modelled from the spec: `checkCompatibility` — reuse `ScoreCalculator`
on the single pair and map the total to its qualitative band. -/
def checkCompatibility (e : Expert) (d : Demand) : CompatibilityResult :=
  let b := score e d
  { total_score := b.total, score_breakdown := b, recommendation := levelOf b.total }

/-! ### Basic facts about the clamp and the sub-scores -/

theorem clamp_nonneg (x : ℚ) : 0 ≤ clamp x := le_max_left 0 _

theorem clamp_le_100 (x : ℚ) : clamp x ≤ 100 :=
  max_le (by norm_num) (min_le_left _ _)

theorem clamp_of_mem {x : ℚ} (h0 : 0 ≤ x) (h1 : x ≤ 100) : clamp x = x := by
  unfold clamp
  rw [min_eq_right h1, max_eq_right h0]

theorem score_specialty (e : Expert) (d : Demand) :
    (score e d).specialty = clamp (specialtyScore e d) := rfl

theorem score_qualification (e : Expert) (d : Demand) :
    (score e d).qualification = clamp (qualificationScore e.qualification) := rfl

theorem score_career (e : Expert) (d : Demand) :
    (score e d).career = clamp (careerScore e.careerYears) := rfl

theorem score_evaluation (e : Expert) (d : Demand) :
    (score e d).evaluation = clamp (evaluationScore e.evaluation) := rfl

theorem score_availability (e : Expert) (d : Demand) :
    (score e d).availability = clamp (availabilityScore e.availability) := rfl

theorem score_total_eq (e : Expert) (d : Demand) :
    (score e d).total =
      defaultWeights.specialty * (score e d).specialty
        + defaultWeights.qualification * (score e d).qualification
        + defaultWeights.career * (score e d).career
        + defaultWeights.evaluation * (score e d).evaluation
        + defaultWeights.availability * (score e d).availability := rfl

theorem score_total_nonneg (e : Expert) (d : Demand) : 0 ≤ (score e d).total := by
  rw [score_total_eq, score_specialty, score_qualification, score_career,
    score_evaluation, score_availability]
  have h1 := clamp_nonneg (specialtyScore e d)
  have h2 := clamp_nonneg (qualificationScore e.qualification)
  have h3 := clamp_nonneg (careerScore e.careerYears)
  have h4 := clamp_nonneg (evaluationScore e.evaluation)
  have h5 := clamp_nonneg (availabilityScore e.availability)
  unfold defaultWeights
  linarith

theorem score_total_le_100 (e : Expert) (d : Demand) : (score e d).total ≤ 100 := by
  rw [score_total_eq, score_specialty, score_qualification, score_career,
    score_evaluation, score_availability]
  have h1 := clamp_le_100 (specialtyScore e d)
  have h2 := clamp_le_100 (qualificationScore e.qualification)
  have h3 := clamp_le_100 (careerScore e.careerYears)
  have h4 := clamp_le_100 (evaluationScore e.evaluation)
  have h5 := clamp_le_100 (availabilityScore e.availability)
  unfold defaultWeights
  linarith

/-- C1: for every expert and demand, `ScoreCalculator.score` returns a
breakdown whose total equals exactly 0.40·specialty + 0.15·qualification +
0.15·career + 0.20·evaluation + 0.10·availability over the five sub-scores,
each clamped to [0, 100] before combination; the five weights sum to
exactly 1.00, and the total is always in [0, 100]. -/
theorem score_total_is_clamped_weighted_sum (e : Expert) (d : Demand) :
    (score e d).total =
        40 / 100 * (score e d).specialty + 15 / 100 * (score e d).qualification
          + 15 / 100 * (score e d).career + 20 / 100 * (score e d).evaluation
          + 10 / 100 * (score e d).availability ∧
      (score e d).specialty = clamp (specialtyScore e d) ∧
      (score e d).qualification = clamp (qualificationScore e.qualification) ∧
      (score e d).career = clamp (careerScore e.careerYears) ∧
      (score e d).evaluation = clamp (evaluationScore e.evaluation) ∧
      (score e d).availability = clamp (availabilityScore e.availability) ∧
      (∀ x : ℚ, 0 ≤ clamp x ∧ clamp x ≤ 100) ∧
      defaultWeights.specialty + defaultWeights.qualification
          + defaultWeights.career + defaultWeights.evaluation
          + defaultWeights.availability = 1 ∧
      0 ≤ (score e d).total ∧ (score e d).total ≤ 100 :=
  ⟨rfl, rfl, rfl, rfl, rfl, rfl, fun x => ⟨clamp_nonneg x, clamp_le_100 x⟩,
    by norm_num [defaultWeights], score_total_nonneg e d, score_total_le_100 e d⟩

/-- C4: the qualification sub-score is determined solely by the
qualification status through the fixed mapping QUALIFIED → 100,
PENDING → 50, DISQUALIFIED → 0, and no other value is ever produced. -/
theorem qualification_discrete_mapping (e : Expert) (d : Demand) :
    qualificationScore .QUALIFIED = 100 ∧
      qualificationScore .PENDING = 50 ∧
      qualificationScore .DISQUALIFIED = 0 ∧
      (score e d).qualification = qualificationScore e.qualification ∧
      ((score e d).qualification = 100 ∨ (score e d).qualification = 50 ∨
        (score e d).qualification = 0) := by
  refine ⟨rfl, rfl, rfl, ?_, ?_⟩ <;>
    · rw [score_qualification]
      cases e.qualification <;> norm_num [qualificationScore, clamp]

theorem careerScore_nonneg (y : Int) : 0 ≤ careerScore y := by
  unfold careerScore
  split
  · exact le_refl 0
  · rename_i h
    refine le_min (by norm_num) ?_
    have hy : (0 : ℚ) ≤ (y : ℚ) := by
      exact_mod_cast le_of_lt (lt_of_not_le h)
    unfold CAREER_CAP_YEARS
    positivity

theorem careerScore_le_100 (y : Int) : careerScore y ≤ 100 := by
  unfold careerScore
  split
  · norm_num
  · exact min_le_left _ _

/-- C5: the career sub-score is a monotone saturating function of career
years: for positive years it equals min(100, years / 15 · 100), it is
monotone (a ≤ b gives score a ≤ score b), years at or above the 15-year
cap yield exactly 100, zero or negative years yield 0, and the value always
lies in [0, 100]. -/
theorem career_monotone_saturating (a b y : Int) (e : Expert) (d : Demand) :
    (a ≤ b → careerScore a ≤ careerScore b) ∧
      (0 < y → careerScore y = min 100 ((y : ℚ) / CAREER_CAP_YEARS * 100)) ∧
      (CAREER_CAP_YEARS ≤ (y : ℚ) → careerScore y = 100) ∧
      (y ≤ 0 → careerScore y = 0) ∧
      (0 ≤ careerScore y ∧ careerScore y ≤ 100) ∧
      (score e d).career = careerScore e.careerYears := by
  refine ⟨?_, ?_, ?_, ?_, ⟨careerScore_nonneg y, careerScore_le_100 y⟩, ?_⟩
  · intro hab
    unfold careerScore
    split
    · exact careerScore_nonneg b
    · rename_i ha
      have hb : ¬ b ≤ 0 := fun hb => ha (hab.trans hb)
      rw [if_neg hb]
      have : (a : ℚ) / CAREER_CAP_YEARS * 100 ≤ (b : ℚ) / CAREER_CAP_YEARS * 100 := by
        unfold CAREER_CAP_YEARS
        have : (a : ℚ) ≤ (b : ℚ) := by exact_mod_cast hab
        linarith
      exact min_le_min le_rfl this
  · intro hy
    unfold careerScore
    rw [if_neg (by omega)]
  · intro hy
    have hy0 : ¬ y ≤ 0 := by
      intro h
      have : (y : ℚ) ≤ 0 := by exact_mod_cast h
      unfold CAREER_CAP_YEARS at hy
      linarith
    unfold careerScore
    rw [if_neg hy0]
    have : (100 : ℚ) ≤ (y : ℚ) / CAREER_CAP_YEARS * 100 := by
      unfold CAREER_CAP_YEARS at hy ⊢
      linarith
    exact min_eq_left this
  · intro hy
    unfold careerScore
    rw [if_pos hy]
  · rw [score_career,
      clamp_of_mem (careerScore_nonneg e.careerYears) (careerScore_le_100 e.careerYears)]

/-- C5 witness: at 10 years the career sub-score is 200/3 (monotone from
the 0-year score 0), at 20 years it saturates at exactly 100, and at -3
years it is 0. -/
theorem career_monotone_saturating_witness :
    careerScore 0 ≤ careerScore 10 ∧
      careerScore 10 = min 100 ((10 : ℚ) / CAREER_CAP_YEARS * 100) ∧
      careerScore 20 = 100 ∧
      careerScore (-3) = 0 :=
  ⟨(career_monotone_saturating 0 10 0 ⟨"", "", ∅, .QUALIFIED, 0, none, none⟩
      ⟨"", ∅⟩).1 (by norm_num),
    (career_monotone_saturating 0 0 10 ⟨"", "", ∅, .QUALIFIED, 0, none, none⟩
      ⟨"", ∅⟩).2.1 (by norm_num),
    (career_monotone_saturating 0 0 20 ⟨"", "", ∅, .QUALIFIED, 0, none, none⟩
      ⟨"", ∅⟩).2.2.1 (by norm_num [CAREER_CAP_YEARS]),
    (career_monotone_saturating 0 0 (-3) ⟨"", "", ∅, .QUALIFIED, 0, none, none⟩
      ⟨"", ∅⟩).2.2.2.1 (by norm_num)⟩

theorem specialtyScore_nonneg (e : Expert) (d : Demand) : 0 ≤ specialtyScore e d := by
  unfold specialtyScore
  split
  · norm_num
  · positivity

theorem specialtyScore_le_100 (e : Expert) (d : Demand) : specialtyScore e d ≤ 100 := by
  unfold specialtyScore
  split
  · norm_num
  · rename_i h
    have hcr : 0 < d.requiredSpecialties.card :=
      Finset.card_pos.mpr (Finset.nonempty_iff_ne_empty.mpr h)
    have hle : (e.specialties ∩ d.requiredSpecialties).card ≤ d.requiredSpecialties.card :=
      Finset.card_le_card Finset.inter_subset_right
    have hcr' : (0 : ℚ) < (d.requiredSpecialties.card : ℚ) := by exact_mod_cast hcr
    have hleQ : ((e.specialties ∩ d.requiredSpecialties).card : ℚ)
        ≤ (d.requiredSpecialties.card : ℚ) := by exact_mod_cast hle
    have hdiv : ((e.specialties ∩ d.requiredSpecialties).card : ℚ)
        / (d.requiredSpecialties.card : ℚ) ≤ 1 := by
      rw [div_le_one hcr']
      exact hleQ
    linarith

/-- C3: with a non-empty required set the specialty sub-score is the
intersection-over-required fraction scaled to 0–100; it is 100 exactly when
the expert's specialty set contains every required tag, 0 exactly when the
two sets are disjoint, and with an empty required set it is the neutral
mid-value 50. -/
theorem specialty_proportional_superset_disjoint (e : Expert) (d : Demand) :
    (d.requiredSpecialties ≠ ∅ →
      ((score e d).specialty =
          ((e.specialties ∩ d.requiredSpecialties).card : ℚ)
            / (d.requiredSpecialties.card : ℚ) * 100) ∧
        ((score e d).specialty = 100 ↔ d.requiredSpecialties ⊆ e.specialties) ∧
        ((score e d).specialty = 0 ↔ Disjoint e.specialties d.requiredSpecialties)) ∧
      (d.requiredSpecialties = ∅ → (score e d).specialty = 50) := by
  constructor
  · intro h
    have hcr : 0 < d.requiredSpecialties.card :=
      Finset.card_pos.mpr (Finset.nonempty_iff_ne_empty.mpr h)
    have hcr' : ((d.requiredSpecialties.card : ℚ)) ≠ 0 := by
      exact_mod_cast hcr.ne'
    have hform : (score e d).specialty =
        ((e.specialties ∩ d.requiredSpecialties).card : ℚ)
          / (d.requiredSpecialties.card : ℚ) * 100 := by
      rw [score_specialty, clamp_of_mem (specialtyScore_nonneg e d) (specialtyScore_le_100 e d)]
      unfold specialtyScore
      rw [if_neg h]
    have key100 : ∀ z : ℚ, z / (d.requiredSpecialties.card : ℚ) * 100 = 100 ↔
        z = (d.requiredSpecialties.card : ℚ) := by
      intro z
      rw [div_mul_eq_mul_div, div_eq_iff hcr']
      constructor
      · intro hz
        linarith
      · intro hz
        rw [hz]
        ring
    have key0 : ∀ z : ℚ, z / (d.requiredSpecialties.card : ℚ) * 100 = 0 ↔ z = 0 := by
      intro z
      rw [div_mul_eq_mul_div, div_eq_iff hcr']
      constructor
      · intro hz
        linarith
      · intro hz
        rw [hz]
        ring
    refine ⟨hform, ?_, ?_⟩
    · rw [hform, key100]
      rw [Nat.cast_inj]
      constructor
      · intro hcard
        have hsub : e.specialties ∩ d.requiredSpecialties = d.requiredSpecialties :=
          Finset.eq_of_subset_of_card_le Finset.inter_subset_right (le_of_eq hcard.symm)
        exact Finset.inter_eq_right.mp hsub
      · intro hsub
        rw [Finset.inter_eq_right.mpr hsub]
    · rw [hform, key0]
      rw [Nat.cast_eq_zero, Finset.card_eq_zero]
      exact (Finset.disjoint_iff_inter_eq_empty).symm
  · intro h
    rw [score_specialty]
    unfold specialtyScore
    rw [if_pos h, clamp_of_mem (by norm_num) (by norm_num)]

/-- C3 witness: a demand requiring {ML, DL, CV} against an expert offering
{ML, CV} scores 200/3 (two of three matched), an expert holding all three
required tags scores 100, a disjoint expert scores 0, and an empty required
set yields the neutral 50. -/
theorem specialty_proportional_witness :
    (score ⟨"E", "N", {"ML", "CV"}, .QUALIFIED, 0, none, none⟩
        ⟨"D", {"ML", "DL", "CV"}⟩).specialty = 200 / 3 ∧
      (score ⟨"E", "N", {"ML", "DL", "CV"}, .QUALIFIED, 0, none, none⟩
        ⟨"D", {"ML", "DL", "CV"}⟩).specialty = 100 ∧
      (score ⟨"E", "N", {"GENERAL"}, .QUALIFIED, 0, none, none⟩
        ⟨"D", {"ML", "DL", "CV"}⟩).specialty = 0 ∧
      (score ⟨"E", "N", {"ML"}, .QUALIFIED, 0, none, none⟩ ⟨"D", ∅⟩).specialty = 50 := by
  refine ⟨?_, ?_, ?_, ?_⟩
  · have h := ((specialty_proportional_superset_disjoint
      ⟨"E", "N", {"ML", "CV"}, .QUALIFIED, 0, none, none⟩
      ⟨"D", {"ML", "DL", "CV"}⟩).1 (by decide)).1
    rw [h]
    have hc1 : (({"ML", "CV"} : Finset Tag) ∩ {"ML", "DL", "CV"}).card = 2 := by decide
    have hc2 : ({"ML", "DL", "CV"} : Finset Tag).card = 3 := by decide
    rw [hc1, hc2]
    norm_num
  · exact ((specialty_proportional_superset_disjoint
      ⟨"E", "N", {"ML", "DL", "CV"}, .QUALIFIED, 0, none, none⟩
      ⟨"D", {"ML", "DL", "CV"}⟩).1 (by decide)).2.1.mpr (by decide)
  · exact ((specialty_proportional_superset_disjoint
      ⟨"E", "N", {"GENERAL"}, .QUALIFIED, 0, none, none⟩
      ⟨"D", {"ML", "DL", "CV"}⟩).1 (by decide)).2.2.mpr (by decide)
  · exact (specialty_proportional_superset_disjoint
      ⟨"E", "N", {"ML"}, .QUALIFIED, 0, none, none⟩ ⟨"D", ∅⟩).2 rfl

/-! ### The comparison used by the Recommender's sort -/

theorem candLE_total (a b : RecommendedCandidate) : (candLE a b || candLE b a) = true := by
  simp only [candLE, Bool.or_eq_true, decide_eq_true_eq]
  exact le_total (sortKey a) (sortKey b)

theorem candLE_trans (a b c : RecommendedCandidate) :
    candLE a b = true → candLE b c = true → candLE a c = true := by
  simp only [candLE, decide_eq_true_eq]
  exact le_trans

theorem candLE_iff (a b : RecommendedCandidate) : candLE a b = true ↔ candBefore a b := by
  simp only [candLE, decide_eq_true_eq, sortKey, candBefore, Prod.Lex.le_iff]
  simp [neg_lt_neg_iff, neg_inj]

theorem mkCandidate_total (e : Expert) (b : MatchScoreBreakdown) :
    (mkCandidate e b).total_score = b.total := rfl

theorem reasonsFor_ne_nil (b : MatchScoreBreakdown) : reasonsFor b ≠ [] := by
  unfold reasonsFor
  split
  · exact List.cons_ne_nil _ _
  · exact List.cons_ne_nil _ _

theorem reasonsFor_of_notable {b : MatchScoreBreakdown} (h : notableReasons b ≠ []) :
    reasonsFor b = notableReasons b := by
  unfold reasonsFor
  split
  · rename_i heq
    exact absurd heq h
  · rename_i r rs heq
    exact heq.symm

theorem reasonsFor_of_no_notable {b : MatchScoreBreakdown} (h : notableReasons b = []) :
    reasonsFor b = [genericReason b] := by
  unfold reasonsFor
  split
  · rfl
  · rename_i r rs heq
    simp [h] at heq

theorem mem_survivors {c : RecommendedCandidate} {d : Demand} {pool : List Expert}
    {minScore : ℚ} :
    c ∈ survivors d pool minScore ↔
      c ∈ candidatesFor d pool ∧ minScore ≤ c.total_score := by
  unfold survivors
  simp [List.mem_filter]

theorem recommend_eq_ok (d : Demand) (pool : List Expert) (topN : Int) (minScore : ℚ)
    (ht : 0 < topN) (h1 : 0 ≤ minScore) (h2 : minScore ≤ 100) :
    recommend d pool topN minScore =
      .ok (((survivors d pool minScore).mergeSort candLE).take
        (min topN MAX_TOP_N).toNat) := by
  unfold recommend
  rw [if_neg (by omega), if_neg (by push_neg; exact ⟨h1, h2⟩)]

/-- C2: under valid arguments `Recommender.recommend` succeeds and returns
exactly the candidates whose total clears `minScore` — every returned
candidate clears it, the returned list draws from the surviving candidates
without invention or duplication, and nothing surviving is dropped unless
the `topN` cut requires it — ordered non-increasingly by total with ties
broken by qualification descending, then career descending, then expert
identifier ascending; the result has exactly min(clamped topN, survivor
count) entries and is literally the first-topN prefix of a fully sorted
arrangement of the survivors (so under truncation it keeps the
highest-ranked entries), and the computation is deterministic. -/
theorem recommend_filters_sorts_deterministic (d : Demand) (pool : List Expert)
    (topN : Int) (minScore : ℚ)
    (ht : 0 < topN) (h1 : 0 ≤ minScore) (h2 : minScore ≤ 100) :
    ∃ res, recommend d pool topN minScore = Except.ok res ∧
      (∀ c ∈ res, minScore ≤ c.total_score) ∧
      List.Pairwise candBefore res ∧
      res.Subperm (survivors d pool minScore) ∧
      ((survivors d pool minScore).length ≤ (min topN MAX_TOP_N).toNat →
        res.Perm (survivors d pool minScore)) ∧
      (∀ r, recommend d pool topN minScore = r → r = Except.ok res) ∧
      res.length = min (min topN MAX_TOP_N).toNat (survivors d pool minScore).length ∧
      (∃ sorted, sorted.Perm (survivors d pool minScore) ∧
        List.Pairwise candBefore sorted ∧
        res = sorted.take (min topN MAX_TOP_N).toNat) := by
  have hsortedPerm : ((survivors d pool minScore).mergeSort candLE).Perm
      (survivors d pool minScore) :=
    List.mergeSort_perm (survivors d pool minScore) candLE
  have hsortedPW : List.Pairwise candBefore
      ((survivors d pool minScore).mergeSort candLE) :=
    (List.sorted_mergeSort candLE_trans candLE_total (survivors d pool minScore)).imp
      fun h => (candLE_iff _ _).mp h
  refine ⟨_, recommend_eq_ok d pool topN minScore ht h1 h2, ?_, ?_, ?_, ?_, ?_, ?_, ?_⟩
  · intro c hc
    have hmem : c ∈ (survivors d pool minScore).mergeSort candLE :=
      (List.take_sublist _ _).subset hc
    have hmem' : c ∈ survivors d pool minScore := hsortedPerm.subset hmem
    exact (mem_survivors.mp hmem').2
  · exact hsortedPW.sublist (List.take_sublist _ _)
  · exact (List.take_sublist _ _).subperm.trans hsortedPerm.subperm
  · intro hlen
    have hl : ((survivors d pool minScore).mergeSort candLE).length
        ≤ (min topN MAX_TOP_N).toNat := by
      rw [hsortedPerm.length_eq]
      exact hlen
    rw [List.take_of_length_le hl]
    exact hsortedPerm
  · intro r hr
    rw [← hr, recommend_eq_ok d pool topN minScore ht h1 h2]
  · rw [List.length_take, hsortedPerm.length_eq]
  · exact ⟨(survivors d pool minScore).mergeSort candLE, hsortedPerm, hsortedPW, rfl⟩

/-- C6: under valid arguments the result length is exactly the minimum of
the (max-clamped) `topN` and the number of surviving candidates — hence at
most `topN` and at most the post-filter pool size; the documented default
is 10 and the documented maximum 50, and a `topN` beyond the maximum is
clamped to it, not rejected. -/
theorem recommend_at_most_topN (d : Demand) (pool : List Expert)
    (topN : Int) (minScore : ℚ)
    (ht : 0 < topN) (h1 : 0 ≤ minScore) (h2 : minScore ≤ 100) :
    ∃ res, recommend d pool topN minScore = Except.ok res ∧
      res.length = min (min topN MAX_TOP_N).toNat (survivors d pool minScore).length ∧
      res.length ≤ (survivors d pool minScore).length ∧
      (res.length : Int) ≤ topN ∧
      DEFAULT_TOP_N = 10 ∧ MAX_TOP_N = 50 ∧
      (MAX_TOP_N < topN →
        recommend d pool topN minScore = recommend d pool MAX_TOP_N minScore) := by
  have hmax : (0 : Int) < MAX_TOP_N := by norm_num [MAX_TOP_N]
  have hlen : (((survivors d pool minScore).mergeSort candLE).take
      (min topN MAX_TOP_N).toNat).length
      = min (min topN MAX_TOP_N).toNat (survivors d pool minScore).length := by
    rw [List.length_take,
      (List.mergeSort_perm (survivors d pool minScore) candLE).length_eq]
  refine ⟨_, recommend_eq_ok d pool topN minScore ht h1 h2, hlen, ?_, ?_, rfl, rfl, ?_⟩
  · rw [hlen]
    exact min_le_right _ _
  · rw [hlen]
    have h1' : min (min topN MAX_TOP_N).toNat (survivors d pool minScore).length
        ≤ (min topN MAX_TOP_N).toNat := min_le_left _ _
    have h2' : ((min topN MAX_TOP_N).toNat : Int) = min topN MAX_TOP_N :=
      Int.toNat_of_nonneg (le_min ht.le hmax.le)
    have h3' : min topN MAX_TOP_N ≤ topN := min_le_left _ _
    omega
  · intro hgt
    rw [recommend_eq_ok d pool topN minScore ht h1 h2,
      recommend_eq_ok d pool MAX_TOP_N minScore hmax h1 h2,
      min_eq_right hgt.le, min_self]

/-- C7: `Recommender.recommend` rejects non-positive `topN` and an
out-of-range `minScore` synchronously as validation errors, while an empty
candidate pool, or a pool in which nobody clears `minScore`, yields an
empty result list rather than an error. -/
theorem recommend_validation_and_empty (d : Demand) (pool : List Expert)
    (topN : Int) (minScore : ℚ) :
    (topN ≤ 0 → recommend d pool topN minScore = Except.error .invalidTopN) ∧
      (0 < topN → (minScore < 0 ∨ 100 < minScore) →
        recommend d pool topN minScore = Except.error .invalidMinScore) ∧
      (0 < topN → 0 ≤ minScore → minScore ≤ 100 →
        recommend d ([] : List Expert) topN minScore = Except.ok []) ∧
      (0 < topN → 0 ≤ minScore → minScore ≤ 100 →
        (∀ e ∈ pool, (score e d).total < minScore) →
        recommend d pool topN minScore = Except.ok []) := by
  refine ⟨?_, ?_, ?_, ?_⟩
  · intro hle
    unfold recommend
    rw [if_pos hle]
  · intro ht hbad
    unfold recommend
    rw [if_neg (by omega), if_pos hbad]
  · intro ht h1 h2
    rw [recommend_eq_ok d [] topN minScore ht h1 h2]
    simp [survivors, candidatesFor]
  · intro ht h1 h2 hall
    rw [recommend_eq_ok d pool topN minScore ht h1 h2]
    have hsurv : survivors d pool minScore = [] := by
      unfold survivors
      rw [List.filter_eq_nil_iff]
      intro c hc
      simp only [candidatesFor, List.mem_map] at hc
      obtain ⟨e, he, rfl⟩ := hc
      simp only [mkCandidate_total, decide_eq_true_eq, not_le]
      exact hall e he
    rw [hsurv]
    simp

/-- C9: under valid arguments every returned candidate carries a non-empty
reasons list: the notable-threshold reasons when any sub-score clears its
threshold, and otherwise the single generic reason derived from the
highest-scoring sub-score. -/
theorem recommend_reasons_nonempty (d : Demand) (pool : List Expert)
    (topN : Int) (minScore : ℚ)
    (ht : 0 < topN) (h1 : 0 ≤ minScore) (h2 : minScore ≤ 100) :
    ∃ res, recommend d pool topN minScore = Except.ok res ∧
      ∀ c ∈ res, c.recommendation_reasons ≠ [] ∧
        c.recommendation_reasons = reasonsFor c.score_breakdown ∧
        (notableReasons c.score_breakdown ≠ [] →
          c.recommendation_reasons = notableReasons c.score_breakdown) ∧
        (notableReasons c.score_breakdown = [] →
          c.recommendation_reasons = [genericReason c.score_breakdown]) := by
  refine ⟨_, recommend_eq_ok d pool topN minScore ht h1 h2, ?_⟩
  intro c hc
  have hmem : c ∈ survivors d pool minScore :=
    (List.mergeSort_perm (survivors d pool minScore) candLE).subset
      ((List.take_sublist _ _).subset hc)
  obtain ⟨e, _, rfl⟩ := by
    simpa only [candidatesFor, List.mem_map] using (mem_survivors.mp hmem).1
  refine ⟨reasonsFor_ne_nil _, rfl, ?_, ?_⟩
  · intro hne
    exact reasonsFor_of_notable hne
  · intro hnil
    exact reasonsFor_of_no_notable hnil

/-- C8: the scorer's call boundary succeeds exactly when the required
fields (qualification status, required-specialty set) are structurally
present — missing optional fields never cause a failure, with the graded
evaluation defaulting to the documented neutral 50 and a missing
availability signal likewise resolving to its documented default — and the
computation is deterministic. -/
theorem scoreChecked_defaults_and_validation (e : RawExpert) (d : RawDemand) :
    ((∃ b, scoreChecked e d = Except.ok b) ↔
        e.qualification ≠ none ∧ d.requiredSpecialties ≠ none) ∧
      (∀ q req, e.qualification = some q → d.requiredSpecialties = some req →
        scoreChecked e d =
          Except.ok (score ⟨e.id, e.name, e.specialties, q, e.careerYears,
            e.availability, e.evaluation⟩ ⟨d.id, req⟩)) ∧
      (e.evaluation = none → ∀ b, scoreChecked e d = Except.ok b →
        b.evaluation = EVALUATION_DEFAULT) ∧
      (e.availability = none → ∀ b, scoreChecked e d = Except.ok b →
        b.availability = AVAILABILITY_DEFAULT) ∧
      EVALUATION_DEFAULT = 50 ∧ AVAILABILITY_DEFAULT = 50 ∧
      (∀ r₁ r₂ : Except ScoreError MatchScoreBreakdown,
        scoreChecked e d = r₁ → scoreChecked e d = r₂ → r₁ = r₂) := by
  refine ⟨?_, ?_, ?_, ?_, rfl, rfl, ?_⟩
  · rcases he : e.qualification with _ | q <;> rcases hd : d.requiredSpecialties with _ | req <;>
      simp [scoreChecked, he, hd]
  · intro q req he hd
    simp [scoreChecked, he, hd]
  · intro hev b hb
    rcases he : e.qualification with _ | q <;> rcases hd : d.requiredSpecialties with _ | req <;>
      simp [scoreChecked, he, hd] at hb
    rw [← hb, score_evaluation]
    simp only [hev]
    rw [show evaluationScore none = EVALUATION_DEFAULT from rfl]
    exact clamp_of_mem (by norm_num [EVALUATION_DEFAULT]) (by norm_num [EVALUATION_DEFAULT])
  · intro hav b hb
    rcases he : e.qualification with _ | q <;> rcases hd : d.requiredSpecialties with _ | req <;>
      simp [scoreChecked, he, hd] at hb
    rw [← hb, score_availability]
    simp only [hav]
    rw [show availabilityScore none = AVAILABILITY_DEFAULT from rfl]
    exact clamp_of_mem (by norm_num [AVAILABILITY_DEFAULT]) (by norm_num [AVAILABILITY_DEFAULT])
  · intro r₁ r₂ h₁ h₂
    rw [← h₁, ← h₂]

/-- C10: `checkCompatibility` reuses `ScoreCalculator.score` on the single
pair and maps its total to exactly one of the four ordered bands at the
cut points 80 / 60 / 40, and any pair clearing the Recommender's default
`minScore` is never banded NOT_RECOMMENDED, keeping the two notions
consistent. -/
theorem checkCompatibility_bands (e : Expert) (d : Demand) :
    (checkCompatibility e d).score_breakdown = score e d ∧
      (checkCompatibility e d).total_score = (score e d).total ∧
      ((checkCompatibility e d).recommendation = .HIGHLY_RECOMMENDED ↔
        80 ≤ (score e d).total) ∧
      ((checkCompatibility e d).recommendation = .RECOMMENDED ↔
        60 ≤ (score e d).total ∧ (score e d).total < 80) ∧
      ((checkCompatibility e d).recommendation = .POSSIBLE ↔
        40 ≤ (score e d).total ∧ (score e d).total < 60) ∧
      ((checkCompatibility e d).recommendation = .NOT_RECOMMENDED ↔
        (score e d).total < 40) ∧
      (DEFAULT_MIN_SCORE ≤ (score e d).total →
        (checkCompatibility e d).recommendation ≠ .NOT_RECOMMENDED) := by
  have hr : (checkCompatibility e d).recommendation = levelOf (score e d).total := rfl
  have hbands : ∀ t : ℚ,
      (levelOf t = .HIGHLY_RECOMMENDED ↔ 80 ≤ t) ∧
        (levelOf t = .RECOMMENDED ↔ 60 ≤ t ∧ t < 80) ∧
        (levelOf t = .POSSIBLE ↔ 40 ≤ t ∧ t < 60) ∧
        (levelOf t = .NOT_RECOMMENDED ↔ t < 40) := by
    intro t
    unfold levelOf
    split_ifs with h1 h2 h3
    · exact ⟨iff_of_true rfl h1,
        iff_of_false (by decide) (fun h => by linarith [h.2]),
        iff_of_false (by decide) (fun h => by linarith [h.2]),
        iff_of_false (by decide) (fun h => by linarith)⟩
    · exact ⟨iff_of_false (by decide) h1,
        iff_of_true rfl ⟨h2, lt_of_not_le h1⟩,
        iff_of_false (by decide) (fun h => by linarith [h.2]),
        iff_of_false (by decide) (fun h => by linarith)⟩
    · exact ⟨iff_of_false (by decide) h1,
        iff_of_false (by decide) (fun h => h2 h.1),
        iff_of_true rfl ⟨h3, lt_of_not_le h2⟩,
        iff_of_false (by decide) (fun h => by linarith)⟩
    · exact ⟨iff_of_false (by decide) h1,
        iff_of_false (by decide) (fun h => h2 h.1),
        iff_of_false (by decide) (fun h => h3 h.1),
        iff_of_true rfl (lt_of_not_le h3)⟩
  refine ⟨rfl, rfl, ?_, ?_, ?_, ?_, ?_⟩
  · rw [hr]
    exact (hbands _).1
  · rw [hr]
    exact (hbands _).2.1
  · rw [hr]
    exact (hbands _).2.2.1
  · rw [hr]
    exact (hbands _).2.2.2
  · intro hmin heq
    rw [hr] at heq
    have hlt := (hbands ((score e d).total)).2.2.2.mp heq
    unfold DEFAULT_MIN_SCORE at hmin
    linarith

/-! ### Concrete end-to-end inputs (spec §8 scenarios A–C) -/

/-- Scenario A expert: specialties {ML, DL}, QUALIFIED, 10 career years,
evaluation 90, available. -/
def expertA : Expert :=
  ⟨"E1", "Alice", {"ML", "DL"}, .QUALIFIED, 10, some true, some 90⟩

/-- Scenario B expert: specialties {DL}, PENDING, 0 career years, no
evaluation history, unavailable. -/
def expertB : Expert :=
  ⟨"E2", "Bob", {"DL"}, .PENDING, 0, some false, none⟩

/-- Scenario A demand: requires {ML}. -/
def demandML : Demand := ⟨"D1", {"ML"}⟩

/-- Scenario B demand: requires {ML, CV}. -/
def demandMLCV : Demand := ⟨"D2", {"ML", "CV"}⟩

theorem scoreA_specialty : (score expertA demandML).specialty = 100 := by
  rw [score_specialty]
  unfold specialtyScore
  rw [if_neg (by decide),
    show (expertA.specialties ∩ demandML.requiredSpecialties).card = 1 from by decide,
    show demandML.requiredSpecialties.card = 1 from by decide]
  norm_num [clamp]

theorem scoreA_qualification : (score expertA demandML).qualification = 100 := by
  rw [score_qualification]
  norm_num [expertA, qualificationScore, clamp]

theorem scoreA_career : (score expertA demandML).career = 200 / 3 := by
  rw [score_career]
  norm_num [expertA, careerScore, CAREER_CAP_YEARS, clamp, min_def, max_def]

theorem scoreA_evaluation : (score expertA demandML).evaluation = 90 := by
  rw [score_evaluation]
  norm_num [expertA, evaluationScore, clamp, min_def, max_def]

theorem scoreA_availability : (score expertA demandML).availability = 100 := by
  rw [score_availability]
  norm_num [expertA, availabilityScore, clamp]

/-- Spec §8 scenario A: Alice's total is exactly 93.0. -/
theorem scoreA_total : (score expertA demandML).total = 93 := by
  rw [score_total_eq, scoreA_specialty, scoreA_qualification, scoreA_career,
    scoreA_evaluation, scoreA_availability]
  norm_num [defaultWeights]

theorem scoreB_specialty : (score expertB demandMLCV).specialty = 0 := by
  rw [score_specialty]
  unfold specialtyScore
  rw [if_neg (by decide),
    show (expertB.specialties ∩ demandMLCV.requiredSpecialties).card = 0 from by decide,
    show demandMLCV.requiredSpecialties.card = 2 from by decide]
  norm_num [clamp]

theorem scoreB_qualification : (score expertB demandMLCV).qualification = 50 := by
  rw [score_qualification]
  norm_num [expertB, qualificationScore, clamp]

theorem scoreB_career : (score expertB demandMLCV).career = 0 := by
  rw [score_career]
  norm_num [expertB, careerScore, clamp]

theorem scoreB_evaluation : (score expertB demandMLCV).evaluation = 50 := by
  rw [score_evaluation]
  norm_num [expertB, evaluationScore, EVALUATION_DEFAULT, clamp, min_def, max_def]

theorem scoreB_availability : (score expertB demandMLCV).availability = 0 := by
  rw [score_availability]
  norm_num [expertB, availabilityScore, clamp]

/-- Spec §8 scenario B: Bob's total is exactly 17.5, below the default
minimum score. -/
theorem scoreB_total : (score expertB demandMLCV).total = 35 / 2 := by
  rw [score_total_eq, scoreB_specialty, scoreB_qualification, scoreB_career,
    scoreB_evaluation, scoreB_availability]
  norm_num [defaultWeights]

theorem scoreB_total_ML : (score expertB demandML).total = 35 / 2 := by
  have hs : (score expertB demandML).specialty = 0 := by
    rw [score_specialty]
    unfold specialtyScore
    rw [if_neg (by decide),
      show (expertB.specialties ∩ demandML.requiredSpecialties).card = 0 from by decide,
      show demandML.requiredSpecialties.card = 1 from by decide]
    norm_num [clamp]
  have hq : (score expertB demandML).qualification = 50 := by
    rw [score_qualification]
    norm_num [expertB, qualificationScore, clamp]
  have hc : (score expertB demandML).career = 0 := by
    rw [score_career]
    norm_num [expertB, careerScore, clamp]
  have hev : (score expertB demandML).evaluation = 50 := by
    rw [score_evaluation]
    norm_num [expertB, evaluationScore, EVALUATION_DEFAULT, clamp, min_def, max_def]
  have ha : (score expertB demandML).availability = 0 := by
    rw [score_availability]
    norm_num [expertB, availabilityScore, clamp]
  rw [score_total_eq, hs, hq, hc, hev, ha]
  norm_num [defaultWeights]

/-- Spec §8 scenario C: with the pool [Alice, Bob] and the default
arguments, only Alice survives the filter. -/
theorem survivors_scenarioC :
    survivors demandML [expertA, expertB] 50 =
      [mkCandidate expertA (score expertA demandML)] := by
  unfold survivors candidatesFor
  simp only [List.map_cons, List.map_nil, List.filter]
  rw [show decide ((50 : ℚ) ≤ (mkCandidate expertA (score expertA demandML)).total_score)
        = true from by rw [mkCandidate_total, scoreA_total]; norm_num,
    show decide ((50 : ℚ) ≤ (mkCandidate expertB (score expertB demandML)).total_score)
        = false from by rw [mkCandidate_total, scoreB_total_ML]; norm_num]

/-- Spec §8 scenario C: `recommend` on [Alice, Bob] with topN 10 and
minScore 50 returns exactly [Alice]. -/
theorem recommend_scenarioC :
    recommend demandML [expertA, expertB] 10 50 =
      Except.ok [mkCandidate expertA (score expertA demandML)] := by
  rw [recommend_eq_ok demandML [expertA, expertB] 10 50 (by norm_num) (by norm_num)
    (by norm_num), survivors_scenarioC]
  norm_num [MAX_TOP_N, List.mergeSort_singleton, min_def]

/-- Truncation exercise expert: specialties {ML}, QUALIFIED, 0 career
years, evaluation 50, unavailable — clears the default filter with total
65, strictly below Alice's 93. -/
def expertC : Expert :=
  ⟨"E3", "Carol", {"ML"}, .QUALIFIED, 0, some false, some 50⟩

theorem scoreC_total : (score expertC demandML).total = 65 := by
  have hs : (score expertC demandML).specialty = 100 := by
    rw [score_specialty]
    unfold specialtyScore
    rw [if_neg (by decide),
      show (expertC.specialties ∩ demandML.requiredSpecialties).card = 1 from by decide,
      show demandML.requiredSpecialties.card = 1 from by decide]
    norm_num [clamp]
  have hq : (score expertC demandML).qualification = 100 := by
    rw [score_qualification]
    norm_num [expertC, qualificationScore, clamp]
  have hc : (score expertC demandML).career = 0 := by
    rw [score_career]
    norm_num [expertC, careerScore, clamp]
  have hev : (score expertC demandML).evaluation = 50 := by
    rw [score_evaluation]
    norm_num [expertC, evaluationScore, clamp, min_def, max_def]
  have ha : (score expertC demandML).availability = 0 := by
    rw [score_availability]
    norm_num [expertC, availabilityScore, clamp]
  rw [score_total_eq, hs, hq, hc, hev, ha]
  norm_num [defaultWeights]

/-- With the pool [Alice, Carol] both candidates clear minScore 50. -/
theorem survivors_truncation :
    survivors demandML [expertA, expertC] 50 =
      [mkCandidate expertA (score expertA demandML),
        mkCandidate expertC (score expertC demandML)] := by
  unfold survivors candidatesFor
  simp only [List.map_cons, List.map_nil, List.filter]
  rw [show decide ((50 : ℚ) ≤ (mkCandidate expertA (score expertA demandML)).total_score)
        = true from by rw [mkCandidate_total, scoreA_total]; norm_num,
    show decide ((50 : ℚ) ≤ (mkCandidate expertC (score expertC demandML)).total_score)
        = true from by rw [mkCandidate_total, scoreC_total]; norm_num]

/-- Truncation at topN 1 over two survivors keeps exactly the top-ranked
candidate (Alice, total 93) and drops Carol (total 65). -/
theorem recommend_truncates :
    recommend demandML [expertA, expertC] 1 50 =
      Except.ok [mkCandidate expertA (score expertA demandML)] := by
  have hle : candLE (mkCandidate expertA (score expertA demandML))
      (mkCandidate expertC (score expertC demandML)) = true :=
    (candLE_iff _ _).mpr (Or.inl (by
      rw [mkCandidate_total, mkCandidate_total, scoreA_total, scoreC_total]
      norm_num))
  have hpw : List.Pairwise (fun a b => candLE a b = true)
      [mkCandidate expertA (score expertA demandML),
        mkCandidate expertC (score expertC demandML)] := by
    refine List.pairwise_cons.mpr ⟨?_, List.pairwise_singleton _ _⟩
    intro b hb
    rw [List.mem_singleton] at hb
    rw [hb]
    exact hle
  rw [recommend_eq_ok demandML [expertA, expertC] 1 50 (by norm_num) (by norm_num)
    (by norm_num), survivors_truncation, List.mergeSort_of_sorted hpw]
  norm_num [MAX_TOP_N, min_def]

/-- C1 witness: at scenario A the invariants instantiate concretely — the
total is in [0, 100] and equals exactly 93. -/
theorem score_total_is_clamped_weighted_sum_witness :
    0 ≤ (score expertA demandML).total ∧ (score expertA demandML).total ≤ 100 ∧
      (score expertA demandML).total = 93 :=
  ⟨(score_total_is_clamped_weighted_sum expertA demandML).2.2.2.2.2.2.2.2.1,
    (score_total_is_clamped_weighted_sum expertA demandML).2.2.2.2.2.2.2.2.2,
    scoreA_total⟩

/-- C4 witness: Alice's qualification sub-score is one of the three
discrete values, concretely 100. -/
theorem qualification_discrete_mapping_witness :
    ((score expertA demandML).qualification = 100 ∨
      (score expertA demandML).qualification = 50 ∨
      (score expertA demandML).qualification = 0) ∧
      (score expertA demandML).qualification = 100 :=
  ⟨(qualification_discrete_mapping expertA demandML).2.2.2.2, scoreA_qualification⟩

/-- C2 witness: the pipeline at a genuinely truncating call — topN 1 over
the two survivors Alice (93) and Carol (65) — with valid arguments
discharged; concretely the truncated result is exactly the top-ranked
[Alice], and scenario C (no truncation) also returns exactly [Alice]. -/
theorem recommend_filters_sorts_deterministic_witness :
    (∃ res, recommend demandML [expertA, expertC] 1 50 = Except.ok res ∧
      (∀ c ∈ res, (50 : ℚ) ≤ c.total_score) ∧
      List.Pairwise candBefore res ∧
      res.Subperm (survivors demandML [expertA, expertC] 50) ∧
      ((survivors demandML [expertA, expertC] 50).length ≤
          (min (1 : Int) MAX_TOP_N).toNat →
        res.Perm (survivors demandML [expertA, expertC] 50)) ∧
      (∀ r, recommend demandML [expertA, expertC] 1 50 = r → r = Except.ok res) ∧
      res.length = min (min (1 : Int) MAX_TOP_N).toNat
          (survivors demandML [expertA, expertC] 50).length ∧
      (∃ sorted, sorted.Perm (survivors demandML [expertA, expertC] 50) ∧
        List.Pairwise candBefore sorted ∧
        res = sorted.take (min (1 : Int) MAX_TOP_N).toNat)) ∧
      recommend demandML [expertA, expertC] 1 50 =
        Except.ok [mkCandidate expertA (score expertA demandML)] ∧
      recommend demandML [expertA, expertB] 10 50 =
        Except.ok [mkCandidate expertA (score expertA demandML)] :=
  ⟨recommend_filters_sorts_deterministic demandML [expertA, expertC] 1 50
      (by norm_num) (by norm_num) (by norm_num),
    recommend_truncates, recommend_scenarioC⟩

/-- C6 witness: a caller requesting topN 60 (beyond the documented maximum
50) is clamped, not rejected, and the result length bounds hold. -/
theorem recommend_at_most_topN_witness :
    ∃ res, recommend demandML [expertA, expertB] 60 50 = Except.ok res ∧
      res.length = min (min (60 : Int) MAX_TOP_N).toNat
          (survivors demandML [expertA, expertB] 50).length ∧
      res.length ≤ (survivors demandML [expertA, expertB] 50).length ∧
      (res.length : Int) ≤ 60 ∧
      DEFAULT_TOP_N = 10 ∧ MAX_TOP_N = 50 ∧
      (MAX_TOP_N < 60 →
        recommend demandML [expertA, expertB] 60 50 =
          recommend demandML [expertA, expertB] MAX_TOP_N 50) :=
  recommend_at_most_topN demandML [expertA, expertB] 60 50
    (by norm_num) (by norm_num) (by norm_num)

/-- C7 witness: topN 0 is a validation error, minScore 150 is a validation
error, the empty pool yields an empty ok-result, and a pool whose only
member scores 17.5 yields an empty ok-result at minScore 50. -/
theorem recommend_validation_and_empty_witness :
    recommend demandML [expertA] 0 50 = Except.error .invalidTopN ∧
      recommend demandML [expertA] 10 150 = Except.error .invalidMinScore ∧
      recommend demandML ([] : List Expert) 10 50 = Except.ok [] ∧
      recommend demandML [expertB] 10 50 = Except.ok [] :=
  ⟨(recommend_validation_and_empty demandML [expertA] 0 50).1 le_rfl,
    (recommend_validation_and_empty demandML [expertA] 10 150).2.1 (by norm_num)
      (Or.inr (by norm_num)),
    (recommend_validation_and_empty demandML [] 10 50).2.2.1 (by norm_num)
      (by norm_num) (by norm_num),
    (recommend_validation_and_empty demandML [expertB] 10 50).2.2.2 (by norm_num)
      (by norm_num) (by norm_num)
      (by
        intro e he
        simp only [List.mem_singleton] at he
        rw [he, scoreB_total_ML]
        norm_num)⟩

/-- C8 witness: Bob's raw record (no evaluation history) is scored, not
rejected, with the neutral evaluation default 50; an all-optional-missing
record still scores, resolving availability to its neutral default; a raw
record with a structurally absent qualification is rejected. -/
theorem scoreChecked_defaults_witness :
    scoreChecked ⟨"E2", "Bob", {"DL"}, some .PENDING, 0, some false, none⟩
        ⟨"D2", some {"ML", "CV"}⟩ = Except.ok (score expertB demandMLCV) ∧
      (score expertB demandMLCV).evaluation = EVALUATION_DEFAULT ∧
      (score (⟨"E3", "Carol", ∅, .QUALIFIED, 0, none, none⟩ : Expert)
        (⟨"D3", ∅⟩ : Demand)).availability = AVAILABILITY_DEFAULT ∧
      scoreChecked ⟨"E2", "Bob", {"DL"}, none, 0, some false, none⟩
        ⟨"D2", some {"ML", "CV"}⟩ = Except.error .missingQualification := by
  have h1 := (scoreChecked_defaults_and_validation
    ⟨"E2", "Bob", {"DL"}, some .PENDING, 0, some false, none⟩
    ⟨"D2", some {"ML", "CV"}⟩).2.1 .PENDING {"ML", "CV"} rfl rfl
  have h3ok := (scoreChecked_defaults_and_validation
    ⟨"E3", "Carol", ∅, some .QUALIFIED, 0, none, none⟩
    ⟨"D3", some ∅⟩).2.1 .QUALIFIED ∅ rfl rfl
  exact ⟨h1,
    (scoreChecked_defaults_and_validation
      ⟨"E2", "Bob", {"DL"}, some .PENDING, 0, some false, none⟩
      ⟨"D2", some {"ML", "CV"}⟩).2.2.1 rfl (score expertB demandMLCV) h1,
    (scoreChecked_defaults_and_validation
      ⟨"E3", "Carol", ∅, some .QUALIFIED, 0, none, none⟩
      ⟨"D3", some ∅⟩).2.2.2.1 rfl _ h3ok,
    rfl⟩

/-- C9 witness: at scenario C the returned candidate's reasons list is
non-empty; concretely Alice earns all four notable reasons. -/
theorem recommend_reasons_nonempty_witness :
    (∃ res, recommend demandML [expertA, expertB] 10 50 = Except.ok res ∧
      ∀ c ∈ res, c.recommendation_reasons ≠ [] ∧
        c.recommendation_reasons = reasonsFor c.score_breakdown ∧
        (notableReasons c.score_breakdown ≠ [] →
          c.recommendation_reasons = notableReasons c.score_breakdown) ∧
        (notableReasons c.score_breakdown = [] →
          c.recommendation_reasons = [genericReason c.score_breakdown])) ∧
      (mkCandidate expertA (score expertA demandML)).recommendation_reasons =
        ["strong specialty match", "fully qualified", "strong evaluation history",
          "immediately available"] := by
  have hn : notableReasons (score expertA demandML) =
      ["strong specialty match", "fully qualified", "strong evaluation history",
        "immediately available"] := by
    unfold notableReasons
    rw [scoreA_specialty, scoreA_qualification, scoreA_evaluation, scoreA_availability]
    norm_num [NOTABLE_THRESHOLD]
  refine ⟨recommend_reasons_nonempty demandML [expertA, expertB] 10 50
      (by norm_num) (by norm_num) (by norm_num), ?_⟩
  show reasonsFor (score expertA demandML) = _
  rw [reasonsFor_of_notable (by rw [hn]; exact List.cons_ne_nil _ _), hn]

/-- C10 witness: Alice/demand-ML (total 93) is HIGHLY_RECOMMENDED and, at
the default minScore, not NOT_RECOMMENDED; Bob/demand-ML-CV (total 17.5)
is NOT_RECOMMENDED. -/
theorem checkCompatibility_bands_witness :
    (checkCompatibility expertA demandML).recommendation =
        RecommendationLevel.HIGHLY_RECOMMENDED ∧
      (checkCompatibility expertB demandMLCV).recommendation =
        RecommendationLevel.NOT_RECOMMENDED ∧
      (checkCompatibility expertA demandML).recommendation ≠
        RecommendationLevel.NOT_RECOMMENDED :=
  ⟨(checkCompatibility_bands expertA demandML).2.2.1.mpr
      (by rw [scoreA_total]; norm_num),
    (checkCompatibility_bands expertB demandMLCV).2.2.2.2.2.1.mpr
      (by rw [scoreB_total]; norm_num),
    (checkCompatibility_bands expertA demandML).2.2.2.2.2.2
      (by rw [scoreA_total]; norm_num [DEFAULT_MIN_SCORE])⟩

end Matching
